import Mathlib

/-!
# Verification of the param reactive-expression user guide and packaging metadata

The repository under review ships the user-guide notebook
`doc/user_guide/Reactive_Expressions.ipynb` and the packaging manifest
`pyproject.toml`.  The implementation of the reactive-expression engine
(`param/reactive.py`) is not part of the provided sources; only its narrated
behaviour is.  Accordingly, the reactive data model below is modelled from the
spec (the notebook's own description of the mechanism: roots created by `rx`
store their input on `_obj`, overloaded operators return new objects recording
the operation, `.rx.value` replays the recorded operations on the current
inputs), while the packaging facts are transcribed directly from
`pyproject.toml`.
-/

namespace ParamRx

/-- Modelled from the spec: the plain Python values that the notebook's
examples wrap with `rx` (integers, booleans, strings, lists, `None`).  The
engine's own value representation is not in the provided sources. -/
inductive Val where
  | none
  | int (n : Int)
  | bool (b : Bool)
  | str (s : String)
  | list (xs : List Val)
deriving Repr

/-- Structural equality test on values (Python `==` on these literals). -/
def Val.beq : Val → Val → Bool
  | .none, .none => true
  | .int a, .int b => a == b
  | .bool a, .bool b => a == b
  | .str a, .str b => a == b
  | .list xs, .list ys => go xs ys
  | _, _ => false
where
  go : List Val → List Val → Bool
  | [], [] => true
  | x :: xs, y :: ys => Val.beq x y && go xs ys
  | _, _ => false

instance : BEq Val := ⟨Val.beq⟩

/-- Modelled from the spec: Python truthiness, used by the notebook's
descriptions of `bool()`, `and`, `or`, `not` and `if` on wrapped values. -/
def truthy : Val → Bool
  | .none => false
  | .int n => n != 0
  | .bool b => b
  | .str s => s != ""
  | .list xs => !xs.isEmpty

/-- Modelled from the spec: a reactive expression.  `root i` is a value
created by `rx(...)` (an independently settable input, looked up in an
environment by its identifier); every other constructor is a recorded
operation, as the notebook describes: "they record the operations you apply,
and when an underlying reactive value changes, they automatically re-execute
these operations".  The constructors past `bin` are the special methods of the
`.rx` namespace (`.rx.and_`, `.rx.or_`, `.rx.not_`, `.rx.bool`, `.rx.in_`,
`.rx.is_`, `.rx.is_not`, `.rx.len`, `.rx.map`, `.rx.pipe`, `.rx.where`). -/
inductive RExpr where
  | root (id : Nat)
  | lit (v : Val)
  | bin (f : Val → Val → Val) (l r : RExpr)
  | and_ (l r : RExpr)
  | or_ (l r : RExpr)
  | not_ (e : RExpr)
  | boolE (e : RExpr)
  | in_ (e coll : RExpr)
  | is_ (l r : RExpr)
  | is_not (l r : RExpr)
  | lenE (e : RExpr)
  | mapE (f : Val → Val) (e : RExpr)
  | pipe (f : Val → Val) (e : RExpr)
  | where_ (c a b : RExpr)

/-- An environment assigns a current value to every root identifier. -/
def Env : Type := Nat → Val

/-- Modelled from the spec: `.rx.value` on an expression "retrieves the most
recent result of the expression, automatically reapplying the operation" —
i.e. the recorded operations are replayed on the current root values.
`and_`/`or_` follow the `and`/`or` keywords (return one operand, chosen by
truthiness), `where_` is the reactive ternary, `lenE` the reactive `len`. -/
def eval (env : Env) : RExpr → Val
  | .root i => env i
  | .lit v => v
  | .bin f l r => f (eval env l) (eval env r)
  | .and_ l r => if truthy (eval env l) then eval env r else eval env l
  | .or_ l r => if truthy (eval env l) then eval env l else eval env r
  | .not_ e => .bool (!truthy (eval env e))
  | .boolE e => .bool (truthy (eval env e))
  | .in_ e coll =>
      match eval env coll with
      | .list xs => .bool (xs.contains (eval env e))
      | .str s =>
          match eval env e with
          | .str sub => .bool ((s.splitOn sub).length != 1)
          | _ => .bool false
      | _ => .bool false
  | .is_ l r => .bool (eval env l == eval env r)
  | .is_not l r => .bool (!(eval env l == eval env r))
  | .lenE e =>
      match eval env e with
      | .list xs => .int xs.length
      | .str s => .int s.length
      | _ => .none
  | .mapE f e =>
      match eval env e with
      | .list xs => .list (xs.map f)
      | v => v
  | .pipe f e => f (eval env e)
  | .where_ c a b => if truthy (eval env c) then eval env a else eval env b

/-- Modelled from the spec: the dependency recorded when an operation is
applied — "this stores the dependency so that whenever `i` changes, the
reactive object knows that it needs to update itself".  `dependsOn e r` holds
when root `r` occurs in `e`. -/
def dependsOn : RExpr → Nat → Bool
  | .root i, r => i == r
  | .lit _, _ => false
  | .bin _ l rr, r => dependsOn l r || dependsOn rr r
  | .and_ l rr, r => dependsOn l r || dependsOn rr r
  | .or_ l rr, r => dependsOn l r || dependsOn rr r
  | .not_ e, r => dependsOn e r
  | .boolE e, r => dependsOn e r
  | .in_ e coll, r => dependsOn e r || dependsOn coll r
  | .is_ l rr, r => dependsOn l r || dependsOn rr r
  | .is_not l rr, r => dependsOn l r || dependsOn rr r
  | .lenE e, r => dependsOn e r
  | .mapE _ e, r => dependsOn e r
  | .pipe _ e, r => dependsOn e r
  | .where_ c a b, r => dependsOn c r || dependsOn a r || dependsOn b r

/-- Point update of an environment: assigning to a root's `.rx.value`. -/
def updateEnv (env : Env) (r : Nat) (v : Val) : Env :=
  fun i => if i = r then v else env i

/-- Number of nodes of an expression; each recorded operation adds a node on
top of its operands. -/
def RExpr.size : RExpr → Nat
  | .root _ => 1
  | .lit _ => 1
  | .bin _ l r => 1 + l.size + r.size
  | .and_ l r => 1 + l.size + r.size
  | .or_ l r => 1 + l.size + r.size
  | .not_ e => 1 + e.size
  | .boolE e => 1 + e.size
  | .in_ e coll => 1 + e.size + coll.size
  | .is_ l r => 1 + l.size + r.size
  | .is_not l r => 1 + l.size + r.size
  | .lenE e => 1 + e.size
  | .mapE _ e => 1 + e.size
  | .pipe _ e => 1 + e.size
  | .where_ c a b => 1 + c.size + a.size + b.size

/-- The immediate sub-expressions of an expression: the operands the recorded
operation was applied to (the notebook's `_obj`: "`i` stores its input value
on an internal attribute called `_obj`"). -/
def operands : RExpr → List RExpr
  | .root _ => []
  | .lit _ => []
  | .bin _ l r => [l, r]
  | .and_ l r => [l, r]
  | .or_ l r => [l, r]
  | .not_ e => [e]
  | .boolE e => [e]
  | .in_ e coll => [e, coll]
  | .is_ l r => [l, r]
  | .is_not l r => [l, r]
  | .lenE e => [e]
  | .mapE _ e => [e]
  | .pipe _ e => [e]
  | .where_ c a b => [c, a, b]

/-- Python integer addition on wrapped values, as in the notebook's
`j = i + 1` example. -/
def addV : Val → Val → Val
  | .int a, .int b => .int (a + b)
  | _, _ => .none

/-- Modelled from the spec: the in-process state of a session — the current
value of every root together with the displayed/registered expressions and the
most recently computed result of each ("When you access the `.value` attribute
of `j`, it retrieves the most recent result of the expression").  Entries are
`(expression, cached result)`. -/
structure RxSystem where
  env : Env
  exprs : List (RExpr × Val)

/-- A system is consistent when every registered expression's cached result is
the value of replaying its recorded operations on the current roots. -/
def consistent (s : RxSystem) : Prop :=
  ∀ p ∈ s.exprs, p.2 = eval s.env p.1

/-- Modelled from the spec: assigning to a root's `.rx.value`.  "Changing a
root value triggers recomputation of everything derived from it": the root is
updated and, before the assignment returns, every registered expression that
depends on the root is recomputed on the new environment; unrelated
expressions keep their cached result. -/
def setRoot (s : RxSystem) (r : Nat) (v : Val) : RxSystem :=
  let env' := updateEnv s.env r v
  { env := env'
    exprs := s.exprs.map fun p =>
      (p.1, if dependsOn p.1 r then eval env' p.1 else p.2) }

/-- Modelled from the spec: the observable state of one expression whose
update may be "in flight" — its cached result plus whether it is currently
recomputing (the state reported by `.rx.updating()`). -/
structure ExprState where
  env : Env
  cache : Val
  inflight : Bool

/-- Modelled from the spec: the value of the expression returned by
`.rx.updating()` — "True while the original expression is updating". -/
def updatingVal (st : ExprState) : Val := .bool st.inflight

/-- Modelled from the spec: the sequence of states an expression passes
through when one of its inputs is assigned.  If the expression depends on the
root, the update is in flight while the recorded operations are re-executed
(`inflight = true`), after which the result settles (`inflight = false`);
otherwise nothing recomputes. -/
def setInputTrace (e : RExpr) (st : ExprState) (r : Nat) (v : Val) :
    List ExprState :=
  let env' := updateEnv st.env r v
  if dependsOn e r then
    [ { env := env', cache := st.cache, inflight := true },
      { env := env', cache := eval env' e, inflight := false } ]
  else
    [ { env := env', cache := st.cache, inflight := false } ]

/-!
## Non-interceptable operations

Modelled from the spec ("Limitations"): `len`, `is`, boolean coercion
(`bool`, `and`, `or`, `not`, `in`) and `if`/ternary branching cannot be
overloaded, so applied to a reactive expression they evaluate immediately on
the current value and yield a plain (non-reactive) result.
-/

/-- Modelled from the spec: Python's `len()` on a reactive expression —
"Python requires the `len` operation to return an integer, not a deferred
reactive integer".  `Option.none` marks the values Python's own `len` rejects. -/
def py_len (env : Env) (e : RExpr) : Option Int :=
  match eval env e with
  | .list xs => some xs.length
  | .str s => some s.length
  | _ => Option.none

/-- Modelled from the spec: `bool()` coercion of a reactive expression,
"required to return Boolean types rather than deferred, reactive Boolean
types". -/
def py_bool (env : Env) (e : RExpr) : Bool := truthy (eval env e)

/-- Modelled from the spec: the `not` keyword on a reactive expression. -/
def py_not (env : Env) (e : RExpr) : Bool := !truthy (eval env e)

/-- Modelled from the spec: the `in` keyword with a reactive collection on
the right, returning a plain Bool on the current values. -/
def py_in (env : Env) (e coll : RExpr) : Bool :=
  match eval env coll with
  | .list xs => xs.contains (eval env e)
  | _ => false

/-- Modelled from the spec: the `is` statement "always checks the immediate
identity of its two operands"; identity of wrapped current values is modelled
as structural equality. -/
def py_is (env : Env) (l r : RExpr) : Bool := eval env l == eval env r

/-- Modelled from the spec: a ternary `a if condition else b` with a reactive
condition "will immediately evaluate and return `a` or `b` rather than
capturing this logic for later reactivity". -/
def py_ternary (env : Env) (c : RExpr) (a b : Val) : Val :=
  if truthy (eval env c) then a else b

/-!
## `param.bind` and reactive functions

Modelled from the spec: `param.bind(add, p.param.a, p.param.b)` binds
Parameters (roots of the dependency graph) to a function's arguments to make
a reactive function; partially binding gives a function of the remaining
arguments, and calling a fully bound function returns the current result as a
concrete, no-longer-reactive value.
-/

/-- Modelled from the spec: fully binding both arguments of a two-argument
function to reactive inputs; the bound function reads the inputs' current
values when invoked. -/
def bindFull (f : Val → Val → Val) (p q : RExpr) : Env → Val :=
  fun env => f (eval env p) (eval env q)

/-- Modelled from the spec: binding only the first argument, which "follows
the semantics of Python's `functools.partial`": the result is a function of
the remaining argument. -/
def bindFirst (f : Val → Val → Val) (p : RExpr) : Val → Env → Val :=
  fun b env => f (eval env p) b

/-- Modelled from the spec: calling a fully bound reactive function
explicitly "to return the current result as a concrete, no longer reactive
value" — a snapshot taken against the environment at call time. -/
def callBound (g : Env → Val) (env : Env) : Val := g env

/-- The special methods listed by the notebook under "Special Methods on
`.rx`". -/
def rx_namespace_methods : List String :=
  [ "and_", "bool", "in_", "is_", "is_not", "len", "map", "not_", "or_",
    "pipe", "updating", "when", "where" ]

/-- The non-interceptable operations named in the notebook's "Limitations"
section, each paired with its reactive counterpart in the `.rx` namespace. -/
def non_interceptable : List (String × String) :=
  [ ("len", "len")
  , ("is", "is_")
  , ("is not", "is_not")
  , ("bool", "bool")
  , ("and", "and_")
  , ("or", "or_")
  , ("not", "not_")
  , ("in", "in_")
  , ("if/ternary", "where") ]

/-- Python's bitwise `&` on (non-negative) integers, used to contrast
`.rx.and_` with the `&` operator. -/
def bitwiseAnd : Val → Val → Val
  | .int a, .int b => .int (Int.ofNat (a.toNat &&& b.toNat))
  | _, _ => .none

/-- Python's bitwise `|` on (non-negative) integers, used to contrast
`.rx.or_` with the `|` operator. -/
def bitwiseOr : Val → Val → Val
  | .int a, .int b => .int (Int.ofNat (a.toNat ||| b.toNat))
  | _, _ => .none

/-- The notebook's running example environment: every root currently `1`
(in particular `i = rx(1)`). -/
def exEnv : Env := fun _ => .int 1

/-- The notebook's derived expression `j = i + 1`, with `i` the root `0`. -/
def jExpr : RExpr := .bin addV (.root 0) (.lit (.int 1))

/-- The notebook's session: root `i = rx(1)` and the displayed derived
expression `j = i + 1`, whose most recent result is `2`. -/
def exSys : RxSystem := { env := exEnv, exprs := [(jExpr, .int 2)] }

end ParamRx

namespace ParamPyproject

/-!
## Packaging metadata

Transcribed from `pyproject.toml` of the repository.
-/

/-- `requires-python` from `[project]` (pyproject.toml line 11). -/
def requires_python : String := ">=3.8"

/-- `classifiers` from `[project]` (pyproject.toml lines 18-33). -/
def classifiers : List String :=
  [ "Development Status :: 5 - Production/Stable"
  , "Intended Audience :: Developers"
  , "Intended Audience :: Science/Research"
  , "License :: OSI Approved :: BSD License"
  , "Natural Language :: English"
  , "Operating System :: OS Independent"
  , "Programming Language :: Python :: 3"
  , "Programming Language :: Python :: 3.8"
  , "Programming Language :: Python :: 3.9"
  , "Programming Language :: Python :: 3.10"
  , "Programming Language :: Python :: 3.11"
  , "Programming Language :: Python :: 3.12"
  , "Topic :: Scientific/Engineering"
  , "Topic :: Software Development :: Libraries" ]

/-- `[project.optional-dependencies]` (pyproject.toml lines 36-86): each
group name with its requirement list. -/
def optional_dependencies : List (String × List String) :=
  [ ("examples", ["aiohttp", "pandas", "panel"])
  , ("doc", ["param[examples]", "nbsite ==0.8.4", "sphinx-remove-toctrees"])
  , ("tests", ["coverage[toml]", "pytest", "pytest-asyncio"])
  , ("tests-deser", ["xlrd", "openpyxl", "odfpy", "pyarrow", "tables"])
  , ("tests-examples",
      ["pytest", "pytest-asyncio", "pytest-xdist", "nbval", "param[examples]"])
  , ("tests-full",
      ["param[tests]", "param[tests-examples]", "param[tests-deser]",
       "numpy", "pandas", "ipython", "jsonschema", "gmpy", "cloudpickle",
       "nest_asyncio"])
  , ("lint", ["flake8", "pre-commit"])
  , ("all", ["param[tests-full]", "param[doc]", "param[lint]"]) ]

/-- `[[tool.hatch.envs.tests.matrix]]` python versions
(pyproject.toml lines 162-170). -/
def hatch_tests_matrix_python : List String :=
  ["3.8", "3.9", "3.10", "3.11", "3.12", "pypy3.9"]

end ParamPyproject

namespace ParamRx

/-- Evaluation only looks at the roots the expression depends on: updating an
unrelated root leaves the value unchanged. -/
theorem eval_updateEnv_of_not_dependsOn (e : RExpr) (r : Nat) (v : Val)
    (env : Env) (h : dependsOn e r = false) :
    eval (updateEnv env r v) e = eval env e := by
  induction e with
  | root i =>
      have h' : (i == r) = false := h
      have hne : i ≠ r := by
        intro hir
        simp [hir] at h'
      simp [eval, updateEnv, hne]
  | lit w => rfl
  | bin f l rr ihl ihr =>
      have h' : (dependsOn l r || dependsOn rr r) = false := h
      rcases Bool.or_eq_false_iff.mp h' with ⟨h1, h2⟩
      simp [eval, ihl h1, ihr h2]
  | and_ l rr ihl ihr =>
      have h' : (dependsOn l r || dependsOn rr r) = false := h
      rcases Bool.or_eq_false_iff.mp h' with ⟨h1, h2⟩
      simp [eval, ihl h1, ihr h2]
  | or_ l rr ihl ihr =>
      have h' : (dependsOn l r || dependsOn rr r) = false := h
      rcases Bool.or_eq_false_iff.mp h' with ⟨h1, h2⟩
      simp [eval, ihl h1, ihr h2]
  | not_ e ih =>
      have h' : dependsOn e r = false := h
      simp [eval, ih h']
  | boolE e ih =>
      have h' : dependsOn e r = false := h
      simp [eval, ih h']
  | in_ e coll ihe ihc =>
      have h' : (dependsOn e r || dependsOn coll r) = false := h
      rcases Bool.or_eq_false_iff.mp h' with ⟨h1, h2⟩
      simp [eval, ihe h1, ihc h2]
  | is_ l rr ihl ihr =>
      have h' : (dependsOn l r || dependsOn rr r) = false := h
      rcases Bool.or_eq_false_iff.mp h' with ⟨h1, h2⟩
      simp [eval, ihl h1, ihr h2]
  | is_not l rr ihl ihr =>
      have h' : (dependsOn l r || dependsOn rr r) = false := h
      rcases Bool.or_eq_false_iff.mp h' with ⟨h1, h2⟩
      simp [eval, ihl h1, ihr h2]
  | lenE e ih =>
      have h' : dependsOn e r = false := h
      simp [eval, ih h']
  | mapE f e ih =>
      have h' : dependsOn e r = false := h
      simp [eval, ih h']
  | pipe f e ih =>
      have h' : dependsOn e r = false := h
      simp [eval, ih h']
  | where_ c a b ihc iha ihb =>
      have h' : (dependsOn c r || dependsOn a r || dependsOn b r) = false := h
      rcases Bool.or_eq_false_iff.mp h' with ⟨h12, h3⟩
      rcases Bool.or_eq_false_iff.mp h12 with ⟨h1, h2⟩
      simp [eval, ihc h1, iha h2, ihb h3]

end ParamRx

namespace ParamRx

/-- C1: Assigning a new value to a root's `.rx.value` triggers recomputation
of every derived expression, so that reading a derived expression's
`.rx.value` afterwards returns the result of re-applying its recorded
operations to the new root value (and the root itself reads the assigned
value). -/
theorem C1_assign_root_recomputes (s : RxSystem) (r : Nat) (v : Val)
    (hcons : consistent s) :
    (setRoot s r v).env r = v ∧ consistent (setRoot s r v) := by
  constructor
  · simp [setRoot, updateEnv]
  · intro p hp
    simp only [setRoot, List.mem_map] at hp
    obtain ⟨q, hq, rfl⟩ := hp
    by_cases hd : dependsOn q.1 r
    · simp [setRoot, hd]
    · have hq2 := hcons q hq
      have hb : dependsOn q.1 r = false := by simpa using hd
      simp [setRoot, hd, hq2,
        eval_updateEnv_of_not_dependsOn q.1 r v s.env hb]

/-- Witness for C1 at the notebook's example: with `i = rx(1)` and
`j = i + 1`, after `i.rx.value = 7` the cached result of `j` is `8`. -/
theorem C1_assign_root_recomputes_witness :
    consistent exSys ∧
    ((setRoot exSys 0 (.int 7)).env 0 = .int 7 ∧
      consistent (setRoot exSys 0 (.int 7))) ∧
    (setRoot exSys 0 (.int 7)).exprs = [(jExpr, .int 8)] := by
  have hcons : consistent exSys := by
    intro p hp
    rcases List.mem_singleton.mp hp with rfl
    rfl
  exact ⟨hcons, C1_assign_root_recomputes exSys 0 (.int 7) hcons, rfl⟩

/-- C3: Propagation is immediate, synchronous and in-process: when the
assignment to a root's `.rx.value` (or to a bound Parameter, which is a root
of the dependency graph) returns, every registered expression depending on
that root has already been recomputed against the new environment within that
same `setRoot` call, with no callback wired by the user. -/
theorem C3_propagation_synchronous (s : RxSystem) (r : Nat) (v : Val) :
    ∀ p ∈ (setRoot s r v).exprs, dependsOn p.1 r = true →
      p.2 = eval (updateEnv s.env r v) p.1 := by
  intro p hp hdep
  simp only [setRoot, List.mem_map] at hp
  obtain ⟨q, hq, rfl⟩ := hp
  simp only at hdep
  simp [hdep]

/-- Witness for C3: after `i.rx.value = 7` returns, `j = i + 1` already
carries the recomputed result `8`. -/
theorem C3_propagation_synchronous_witness :
    (jExpr, Val.int 8) ∈ (setRoot exSys 0 (.int 7)).exprs ∧
    dependsOn jExpr 0 = true ∧
    (Val.int 8) = eval (updateEnv exSys.env 0 (.int 7)) jExpr := by
  have hmem : (jExpr, Val.int 8) ∈ (setRoot exSys 0 (.int 7)).exprs := by
    show (jExpr, Val.int 8) ∈ [(jExpr, Val.int 8)]
    exact List.mem_singleton.mpr rfl
  exact ⟨hmem, rfl,
    C3_propagation_synchronous exSys 0 (.int 7) (jExpr, Val.int 8) hmem rfl⟩

end ParamRx

namespace ParamRx

/-- C6: A root value is independently settable and has no upstream
dependency: assigning to it makes it read the assigned value, assigning to
any other root leaves it unchanged (recomputation of derived expressions
never writes a root), and a root depends on no root other than itself. -/
theorem C6_root_independent (s : RxSystem) (r r' : Nat) (v v' : Val)
    (h : r ≠ r') :
    (setRoot s r v).env r = v ∧
    (setRoot s r' v').env r = s.env r ∧
    dependsOn (RExpr.root r) r' = false := by
  refine ⟨?_, ?_, ?_⟩
  · simp [setRoot, updateEnv]
  · simp [setRoot, updateEnv, h]
  · simp only [dependsOn, beq_eq_false_iff_ne, ne_eq]
    exact h

/-- Witness for C6 with roots `0` and `1` of the example session. -/
theorem C6_root_independent_witness :
    (0 : Nat) ≠ 1 ∧
    ((setRoot exSys 0 (.int 7)).env 0 = .int 7 ∧
     (setRoot exSys 1 (.int 9)).env 0 = exSys.env 0 ∧
     dependsOn (RExpr.root 0) 1 = false) :=
  ⟨by decide, C6_root_independent exSys 0 1 (.int 7) (.int 9) (by decide)⟩

/-- C4: Applying a supported operator to a reactive expression produces a
new tracked object, distinct from the operand, that records the applied
operation: its operands are the original expression and the argument, and
its value replays the operation on their current values; the operand `e`
itself occurs unchanged inside the new object. -/
theorem C4_operator_new_object (f : Val → Val → Val) (e arg : RExpr)
    (env : Env) :
    RExpr.bin f e arg ≠ e ∧
    operands (RExpr.bin f e arg) = [e, arg] ∧
    eval env (RExpr.bin f e arg) = f (eval env e) (eval env arg) := by
  refine ⟨?_, rfl, rfl⟩
  intro hEq
  have hsz := congrArg RExpr.size hEq
  simp [RExpr.size] at hsz
  omega

/-- C2: The operations Python cannot hand to the overloading machinery —
`len`, `is`, boolean coercion (`bool`, `not`, `in`) and ternary branching —
applied to reactive expressions evaluate immediately on the current values
to plain, non-reactive results (booleans, integers, an already-chosen
branch value), not to deferred reactive expressions, and without error on
the values the plain operations accept. -/
theorem C2_noninterceptable_immediate (env : Env) (e c l r : RExpr)
    (a b : Val) (xs : List Val) (s : String) :
    py_bool env e = truthy (eval env e) ∧
    py_not env e = !truthy (eval env e) ∧
    py_is env l r = (eval env l == eval env r) ∧
    py_ternary env c a b = (if truthy (eval env c) then a else b) ∧
    py_len env (.lit (.list xs)) = some (xs.length : Int) ∧
    py_len env (.lit (.str s)) = some (s.length : Int) ∧
    py_in env e (.lit (.list xs)) = xs.contains (eval env e) :=
  ⟨rfl, rfl, rfl, rfl, rfl, rfl, rfl⟩

end ParamRx

namespace ParamRx

/-- C5: `.rx.updating()` reports whether the expression is recomputing: when
an input the expression depends on is assigned, the expression's trace of
states passes through one in which the updating value is True (the update in
flight, the old result still cached) and ends in a settled state in which it
is False and the cached result is the recomputed value. -/
theorem C5_updating_transient (e : RExpr) (st : ExprState) (r : Nat)
    (v : Val) (hdep : dependsOn e r = true) :
    ∃ mid fin : ExprState,
      setInputTrace e st r v = [mid, fin] ∧
      updatingVal mid = .bool true ∧ mid.cache = st.cache ∧
      updatingVal fin = .bool false ∧
      fin.cache = eval (updateEnv st.env r v) e := by
  refine ⟨{ env := updateEnv st.env r v, cache := st.cache, inflight := true },
          { env := updateEnv st.env r v,
            cache := eval (updateEnv st.env r v) e, inflight := false },
          ?_, rfl, rfl, rfl, rfl⟩
  simp [setInputTrace, hdep]

/-- Witness for C5: updating the input of `j = i + 1` makes its updating
state toggle to True and then settle back to False with the new result. -/
theorem C5_updating_transient_witness :
    dependsOn jExpr 0 = true ∧
    ∃ mid fin : ExprState,
      setInputTrace jExpr ⟨exEnv, .int 2, false⟩ 0 (.int 7) = [mid, fin] ∧
      updatingVal mid = .bool true ∧ mid.cache = .int 2 ∧
      updatingVal fin = .bool false ∧
      fin.cache = eval (updateEnv exEnv 0 (.int 7)) jExpr :=
  ⟨rfl, C5_updating_transient jExpr ⟨exEnv, .int 2, false⟩ 0 (.int 7) rfl⟩

/-- C9: For `ternary_expr = condition.rx.where(a, b)`: while the condition is
True the value is `a`'s current value, while it is False it is `b`'s current
value; and while the condition is False, updating a root on which neither the
condition nor `b` depends (in particular a root read only by `a`) leaves the
ternary expression's value unchanged — two runs differing only in that root
produce the same output. -/
theorem C9_where_gates (env : Env) (c a b : RExpr) (r : Nat) (v : Val)
    (hc : dependsOn c r = false) (hb : dependsOn b r = false) :
    (truthy (eval env c) = true →
      eval env (RExpr.where_ c a b) = eval env a) ∧
    (truthy (eval env c) = false →
      eval env (RExpr.where_ c a b) = eval env b) ∧
    (truthy (eval env c) = false →
      eval (updateEnv env r v) (RExpr.where_ c a b) =
        eval env (RExpr.where_ c a b)) := by
  refine ⟨?_, ?_, ?_⟩
  · intro h
    simp [eval, h]
  · intro h
    simp [eval, h]
  · intro h
    have hc' : eval (updateEnv env r v) c = eval env c :=
      eval_updateEnv_of_not_dependsOn c r v env hc
    have hb' : eval (updateEnv env r v) b = eval env b :=
      eval_updateEnv_of_not_dependsOn b r v env hb
    simp [eval, hc', hb', h]

/-- Witness for C9: condition `not i` (False since `i = 1` is truthy),
`a = root 1`, `b = root 2`; updating root `1` does not change the ternary
expression's value. -/
theorem C9_where_gates_witness :
    dependsOn (RExpr.not_ (.root 0)) 1 = false ∧
    dependsOn (RExpr.root 2) 1 = false ∧
    ((truthy (eval exEnv (RExpr.not_ (.root 0))) = true →
        eval exEnv (RExpr.where_ (.not_ (.root 0)) (.root 1) (.root 2)) =
          eval exEnv (RExpr.root 1)) ∧
     (truthy (eval exEnv (RExpr.not_ (.root 0))) = false →
        eval exEnv (RExpr.where_ (.not_ (.root 0)) (.root 1) (.root 2)) =
          eval exEnv (RExpr.root 2)) ∧
     (truthy (eval exEnv (RExpr.not_ (.root 0))) = false →
        eval (updateEnv exEnv 1 (.int 42))
            (RExpr.where_ (.not_ (.root 0)) (.root 1) (.root 2)) =
          eval exEnv (RExpr.where_ (.not_ (.root 0)) (.root 1) (.root 2)))) :=
  ⟨rfl, rfl,
    C9_where_gates exEnv (RExpr.not_ (.root 0)) (.root 1) (.root 2) 1
      (.int 42) rfl rfl⟩

end ParamRx

namespace ParamRx

/-- C8: Every non-interceptable operation has a reactive counterpart in the
`.rx` namespace (the pairing is checked over the notebook's lists), and each
counterpart is a reactive expression whose value is re-derived from whatever
environment it is evaluated against; `.rx.and_` and `.rx.or_` follow the
`and` / `or` keyword semantics — returning one of the operands chosen by
truthiness — not the bitwise `&` / `|` operators, as the contrast at the
integers `2` and `3` shows. -/
theorem C8_rx_namespace (env : Env) (e a : RExpr) (xs : List Val) :
    (non_interceptable.all fun p => rx_namespace_methods.contains p.2) = true ∧
    eval env (RExpr.and_ e a) =
      (if truthy (eval env e) then eval env a else eval env e) ∧
    eval env (RExpr.or_ e a) =
      (if truthy (eval env e) then eval env e else eval env a) ∧
    eval env (RExpr.not_ e) = .bool (!truthy (eval env e)) ∧
    eval env (RExpr.boolE e) = .bool (truthy (eval env e)) ∧
    eval env (RExpr.is_ e a) = .bool (eval env e == eval env a) ∧
    eval env (RExpr.is_not e a) = .bool (!(eval env e == eval env a)) ∧
    eval env (RExpr.lenE (.lit (.list xs))) = .int xs.length ∧
    eval env (RExpr.in_ e (.lit (.list xs))) =
      .bool (xs.contains (eval env e)) ∧
    eval env (RExpr.and_ (.lit (.int 2)) (.lit (.int 3))) = .int 3 ∧
    bitwiseAnd (.int 2) (.int 3) = .int 2 ∧
    eval env (RExpr.or_ (.lit (.int 2)) (.lit (.int 3))) = .int 2 ∧
    bitwiseOr (.int 2) (.int 3) = .int 3 :=
  ⟨rfl, rfl, rfl, rfl, rfl, rfl, rfl, rfl, rfl, rfl, rfl, rfl, rfl⟩

/-- C10: `param.bind` follows the semantics of `functools.partial`: binding
only the first argument yields a function of the remaining argument (and
agrees with fully binding a literal); calling a fully bound reactive
function returns a concrete snapshot — the underlying function applied to
the inputs' current values at call time — which later root updates do not
touch: only a fresh call against the updated environment yields the new
result, as the concrete contrast shows. -/
theorem C10_bind_semantics (f : Val → Val → Val) (p q : RExpr) (b : Val)
    (env : Env) :
    bindFirst f p b env = f (eval env p) b ∧
    bindFirst f p b env = bindFull f p (.lit b) env ∧
    callBound (bindFull f p q) env = f (eval env p) (eval env q) ∧
    callBound (bindFull addV (.root 0) (.root 1)) exEnv = .int 2 ∧
    callBound (bindFull addV (.root 0) (.root 1))
      (updateEnv exEnv 0 (.int 5)) = .int 6 :=
  ⟨rfl, rfl, rfl, rfl, rfl⟩

end ParamRx

namespace ParamPyproject

/-- C7: The packaging configuration enumerates the supported interpreters —
`requires-python >= 3.8`, classifiers for CPython 3.8 through 3.12, and a
hatch test matrix over 3.8, 3.9, 3.10, 3.11, 3.12 and pypy3.9 — and the
optional dependency groups `examples`, `doc`, `tests`, `tests-deser`,
`tests-examples`, `tests-full`, `lint`, `all`. -/
theorem C7_packaging_configuration :
    requires_python = ">=3.8" ∧
    optional_dependencies.map Prod.fst =
      ["examples", "doc", "tests", "tests-deser", "tests-examples",
       "tests-full", "lint", "all"] ∧
    hatch_tests_matrix_python =
      ["3.8", "3.9", "3.10", "3.11", "3.12", "pypy3.9"] ∧
    (["Programming Language :: Python :: 3.8",
      "Programming Language :: Python :: 3.9",
      "Programming Language :: Python :: 3.10",
      "Programming Language :: Python :: 3.11",
      "Programming Language :: Python :: 3.12"].all
        fun cl => classifiers.contains cl) = true :=
  ⟨rfl, rfl, rfl, rfl⟩

end ParamPyproject
